import Mathlib

/-!
Verification of the asynchronous job-orchestration core of the
`food-fight-robots` repository (Tauri/Rust backend, `src-tauri/src/`).

The embedding models, from the source:
* `meshy.rs` — the three poll loops `poll_for_glb_url`,
  `poll_for_rigging_success`, `poll_for_animation_glb`, over an abstract
  stream of fetch observations (one observation per status fetch);
* `gemini.rs` — the stats-extraction step of `generate_robot_status`
  (typed decode with serde aliases, plus the recursive `find_string` /
  `find_i32` fallback over nested JSON);
* `lib.rs` / `db.rs` — the `run_generation_pipeline` orchestrator and the
  insert-only result store.

Effectful steps (HTTP, sleeping, the filesystem, the event channel) are
modelled by explicit oracles: a poll loop consumes `obs : Nat → _` where
`obs i` is what the i-th status fetch of that loop returned, and the
pipeline consumes a `PipelineEnv` of per-stage outcomes.  Each poll loop
returns a `PollTrace`: its final `Result`, the number of fetches it
performed, and the progress strings it emitted, in order.
-/

namespace FoodFight

/-! ## Data model (meshy.rs) -/

/-- `meshy.rs` `TaskError` — the remote-supplied failure message. -/
structure TaskError where
  message : String
deriving Repr, DecidableEq

/-- `meshy.rs` `ModelUrls`. -/
structure ModelUrls where
  glb : Option String
  fbx : Option String
  obj : Option String
deriving Repr, DecidableEq

/-- `meshy.rs` `TaskStatusResponse` (used by the mesh and rigging polls). -/
structure TaskStatusResponse where
  id : String
  status : String
  progress : Nat
  model_urls : Option ModelUrls
  task_error : Option TaskError
deriving Repr, DecidableEq

/-- `meshy.rs` `AnimationUrls`. -/
structure AnimationUrls where
  animation_glb_url : Option String
deriving Repr, DecidableEq

/-- `meshy.rs` `AnimationTaskStatusResponse`. -/
structure AnimationTaskStatusResponse where
  status : String
  progress : Option Nat
  result : Option AnimationUrls
deriving Repr, DecidableEq

/-- What one status fetch of the mesh poll loop yields: `get_task_status`
folds transport failures, non-success HTTP statuses and JSON decode
failures alike into `Err(String)`, so the mesh loop only ever sees
`Result<TaskStatusResponse, String>`. -/
abbrev MeshFetch := Except String TaskStatusResponse

/-- What one status fetch of the rigging / animation poll loops yields.
Unlike the mesh loop these loops issue the raw request inline, so they
distinguish a transport-level failure (`res` is `Err`), a response with a
non-success HTTP status, a JSON parse failure, and a parsed body. -/
inductive PollFetch (σ : Type) where
  | transportError (e : String)
  | httpError (status : String) (body : String)
  | parseError (e : String)
  | ok (st : σ)
deriving Repr, DecidableEq

/-- The observable behaviour of one poll-loop run: the returned
`Result`, how many status fetches were performed, and the
`pipeline-progress` strings emitted, in order. -/
structure PollTrace (α : Type) where
  result : Except String α
  fetches : Nat
  emitted : List String
deriving Repr

/-- `meshy.rs`: every poll loop uses `max_attempts = 120`. -/
def max_attempts : Nat := 120

/-! ## Mesh poll loop (`poll_for_glb_url`, meshy.rs lines 106–154)

The Rust loop keeps a counter `attempts` (starting at 0) and checks
`attempts > max_attempts` at the TOP of each iteration, before fetching.
We carry the equivalent countdown `max_attempts + 1 - attempts`, so that
the top-of-loop check `attempts > max_attempts` is `countdown = 0`; this
makes the recursion structural.  `fetchCount` counts fetches performed so
far and doubles as the index into the observation stream. -/

def pollGlbFrom (obs : Nat → MeshFetch) : Nat → Nat → PollTrace String
  | 0, fetchCount =>
    ⟨.error "Timeout waiting for Meshy AI task", fetchCount, []⟩
  | countdown + 1, fetchCount =>
    match obs fetchCount with
    | .ok status =>
      if status.status = "SUCCEEDED" then
        match status.model_urls with
        | some urls =>
          match urls.glb with
          | some glb => ⟨.ok glb, fetchCount + 1, []⟩
          | none =>
            ⟨.error "Task succeeded but no GLB URL found in response",
              fetchCount + 1, []⟩
        | none =>
          ⟨.error "Task succeeded but no GLB URL found in response",
            fetchCount + 1, []⟩
      else if status.status = "FAILED" then
        let err_msg := (status.task_error.map TaskError.message).getD "Unknown error"
        ⟨.error ("Meshy Task Failed: " ++ err_msg), fetchCount + 1, []⟩
      else if status.status = "PENDING" ∨ status.status = "IN_PROGRESS" then
        let note := "Image to 3D Base Model: " ++ toString status.progress ++ "%"
        let t := pollGlbFrom obs countdown (fetchCount + 1)
        ⟨t.result, t.fetches, note :: t.emitted⟩
      else
        ⟨.error ("Unknown status: " ++ status.status), fetchCount + 1, []⟩
    | .error _ =>
      -- transient network / HTTP / decode failure: logged and retried
      pollGlbFrom obs countdown (fetchCount + 1)

/-- `poll_for_glb_url`: starts with `attempts = 0`, i.e. countdown
`max_attempts + 1`, having performed no fetches. -/
def poll_for_glb_url (obs : Nat → MeshFetch) : PollTrace String :=
  pollGlbFrom obs (max_attempts + 1) 0

/-! ## Rigging poll loop (`poll_for_rigging_success`, meshy.rs 191–244)

Here the `attempts > max_attempts` check sits at the BOTTOM of the loop,
after `attempts` was incremented by the non-returning branches.  With the
same countdown encoding (`countdown = max_attempts + 1 - attempts` at the
top of an iteration), the post-increment check fires exactly when
`countdown ≤ 1`. -/

def pollRiggingFrom (task_id : String) (obs : Nat → PollFetch TaskStatusResponse) :
    Nat → Nat → PollTrace Unit
  | countdown, fetchCount =>
    match obs fetchCount with
    | .transportError _ =>
      -- logged, attempts += 1, then the bottom-of-loop timeout check
      match countdown with
      | 0 | 1 => ⟨.error "Timeout waiting for Rigging task", fetchCount + 1, []⟩
      | c + 2 => pollRiggingFrom task_id obs (c + 1) (fetchCount + 1)
    | .httpError status body =>
      ⟨.error ("Meshy poll error: " ++ status ++ " - " ++ body), fetchCount + 1, []⟩
    | .parseError e =>
      ⟨.error ("Failed to parse Rigging task status: " ++ e), fetchCount + 1, []⟩
    | .ok task_status =>
      if task_status.status = "SUCCEEDED" then
        ⟨.ok (), fetchCount + 1, []⟩
      else if task_status.status = "FAILED" ∨ task_status.status = "CANCELED" then
        ⟨.error ("Rigging task failed or canceled. ID: " ++ task_id), fetchCount + 1, []⟩
      else
        -- PENDING or IN_PROGRESS (or anything else): emit progress and continue
        let note := "Rigging Model: " ++ toString task_status.progress ++ "%"
        match countdown with
        | 0 | 1 => ⟨.error "Timeout waiting for Rigging task", fetchCount + 1, [note]⟩
        | c + 2 =>
          let t := pollRiggingFrom task_id obs (c + 1) (fetchCount + 1)
          ⟨t.result, t.fetches, note :: t.emitted⟩

/-- `poll_for_rigging_success`. -/
def poll_for_rigging_success (task_id : String)
    (obs : Nat → PollFetch TaskStatusResponse) : PollTrace Unit :=
  pollRiggingFrom task_id obs (max_attempts + 1) 0

/-! ## Animation poll loop (`poll_for_animation_glb`, meshy.rs 294–354) -/

def pollAnimationFrom (task_id : String) (anim_name : String)
    (obs : Nat → PollFetch AnimationTaskStatusResponse) :
    Nat → Nat → PollTrace String
  | countdown, fetchCount =>
    match obs fetchCount with
    | .transportError _ =>
      match countdown with
      | 0 | 1 =>
        ⟨.error ("Timeout waiting for Animation task (" ++ anim_name ++ ")"),
          fetchCount + 1, []⟩
      | c + 2 => pollAnimationFrom task_id anim_name obs (c + 1) (fetchCount + 1)
    | .httpError status body =>
      ⟨.error ("Meshy poll error: " ++ status ++ " - " ++ body), fetchCount + 1, []⟩
    | .parseError e =>
      ⟨.error ("Failed to parse Animation task status: " ++ e), fetchCount + 1, []⟩
    | .ok task_status =>
      if task_status.status = "SUCCEEDED" then
        match task_status.result with
        | some r =>
          match r.animation_glb_url with
          | some glb_url => ⟨.ok glb_url, fetchCount + 1, []⟩
          | none =>
            ⟨.error "Task succeeded but animation_glb_url is missing", fetchCount + 1, []⟩
        | none =>
          ⟨.error "Task succeeded but result object is missing", fetchCount + 1, []⟩
      else if task_status.status = "FAILED" ∨ task_status.status = "CANCELED" then
        ⟨.error ("Animation task failed or canceled. ID: " ++ task_id), fetchCount + 1, []⟩
      else
        let note := "Applying Animation (" ++ anim_name ++ "): "
          ++ toString (task_status.progress.getD 0) ++ "%"
        match countdown with
        | 0 | 1 =>
          ⟨.error ("Timeout waiting for Animation task (" ++ anim_name ++ ")"),
            fetchCount + 1, [note]⟩
        | c + 2 =>
          let t := pollAnimationFrom task_id anim_name obs (c + 1) (fetchCount + 1)
          ⟨t.result, t.fetches, note :: t.emitted⟩

/-- `poll_for_animation_glb`. -/
def poll_for_animation_glb (task_id : String) (anim_name : String)
    (obs : Nat → PollFetch AnimationTaskStatusResponse) : PollTrace String :=
  pollAnimationFrom task_id anim_name obs (max_attempts + 1) 0

/-! ## Stats generation (gemini.rs)

`generate_robot_status` asks the text service for a flat JSON object and
decodes it with serde (`RobotStatus`, with case aliases per field); if the
typed decode fails it re-parses the text as a generic `serde_json::Value`
and runs the recursive `find_string` / `find_i32` key search, substituting
a documented default for every field still missing (gemini.rs 134–189).

`Json` models `serde_json::Value`; object fields are an ordered list of
key/value pairs (the iteration order `find_string` sees).  Only integral
numbers appear (`as_i64` on anything else yields `None`, which the code
treats like a missing value). -/

mutual
inductive Json where
  | null
  | bool (b : Bool)
  | num (n : Int)
  | str (s : String)
  | arr (xs : JsonArr)
  | obj (fields : JsonFields)

inductive JsonArr where
  | nil
  | cons (hd : Json) (tl : JsonArr)

inductive JsonFields where
  | nil
  | cons (key : String) (val : Json) (tl : JsonFields)
end

/-- Rust `str::to_lowercase` (ASCII suffices for the keys involved). -/
def strToLower (s : String) : String := String.mk (s.data.map Char.toLower)

/-- `Value::as_str`. -/
def Json.asStr : Json → Option String
  | .str s => some s
  | _ => none

/-- `Value::as_i64` (integral numbers only in this model). -/
def Json.asI64 : Json → Option Int
  | .num n => some n
  | _ => none

/-- The wrapping conversion performed by the Rust cast `n as i32`. -/
def toI32 (n : Int) : Int := (n + 2 ^ 31) % 2 ^ 32 - 2 ^ 31

mutual
/-- gemini.rs `find_string`: depth-first search of an object tree for the
first string value whose (lower-cased) key is one of `keys`.  Arrays and
scalars are not objects, so the search does not descend into them. -/
def find_string : Json → List String → Option String
  | .obj fields, keys => find_string_fields fields keys
  | _, _ => none
termination_by structural v => v

/-- The `for (k, val) in obj` body of `find_string`: if the key matches
and the value is a string, return it; otherwise search inside the value,
then move on to the remaining fields. -/
def find_string_fields : JsonFields → List String → Option String
  | .nil, _ => none
  | .cons k val rest, keys =>
    match (if keys.contains (strToLower k) then val.asStr else none) with
    | some s => some s
    | none =>
      match find_string val keys with
      | some res => some res
      | none => find_string_fields rest keys
termination_by structural fields => fields
end

mutual
/-- gemini.rs `find_i32` (same search, `as_i64` then `as i32`). -/
def find_i32 : Json → List String → Option Int
  | .obj fields, keys => find_i32_fields fields keys
  | _, _ => none
termination_by structural v => v

def find_i32_fields : JsonFields → List String → Option Int
  | .nil, _ => none
  | .cons k val rest, keys =>
    match (if keys.contains (strToLower k) then (val.asI64).map toI32 else none) with
    | some n => some n
    | none =>
      match find_i32 val keys with
      | some res => some res
      | none => find_i32_fields rest keys
termination_by structural fields => fields
end

/-- gemini.rs `RobotStatus` (`def` is a Rust field name; `hp`/`atk`/`def`
are `i32`, modelled as `Int`). -/
structure RobotStatus where
  name : String
  lore : String
  hp : Int
  atk : Int
  «def» : Int
  visual_description : String
deriving Repr, DecidableEq

/-- First field of `fields` whose key is in `names` (serde matches a field
against its declared name and its `alias`es, case-sensitively). -/
def jsonLookup : JsonFields → List String → Option Json
  | .nil, _ => none
  | .cons k v rest, names =>
    if names.contains k then some v else jsonLookup rest names

/-- The serde typed decode `serde_json::from_str::<RobotStatus>` on an
already-parsed value: a top-level object providing all six fields, each
under its declared name or one of its `alias`es, with the right type.
Unknown extra fields are ignored (no `deny_unknown_fields`). -/
def decodeRobotStatus : Json → Option RobotStatus
  | .obj fields => do
    let name ← (jsonLookup fields ["name", "Name"]).bind Json.asStr
    let lore ← (jsonLookup fields ["lore", "Lore"]).bind Json.asStr
    let hp ← (jsonLookup fields ["hp", "HP"]).bind Json.asI64
    let atk ← (jsonLookup fields ["atk", "ATK"]).bind Json.asI64
    let d ← (jsonLookup fields ["def", "DEF"]).bind Json.asI64
    let vd ← (jsonLookup fields
        ["visual_description", "VisualDescription", "visualDescription"]).bind Json.asStr
    some ⟨name, lore, hp, atk, d, vd⟩
  | _ => none

/-- The response-handling tail of `generate_robot_status` (gemini.rs
134–189), given the response text already parsed as JSON: try the typed
decode; on failure, fall back to the recursive key search with the
documented default for each field still missing.  Total — this stage
cannot fail on any parseable JSON value. -/
def extract_robot_status (v : Json) : RobotStatus :=
  match decodeRobotStatus v with
  | some s => s
  | none =>
    { name := (find_string v ["name"]).getD "Unknown Robot"
      lore := (find_string v ["lore"]).getD "No lore available."
      hp := (find_i32 v ["hp"]).getD 1000
      atk := (find_i32 v ["atk"]).getD 50
      «def» := (find_i32 v ["def"]).getD 20
      visual_description :=
        (find_string v ["visual_description", "visual_description_en"]).getD
          "A standard mechanical combat robot." }

/-! ## Pipeline orchestrator (lib.rs) and result store (db.rs)

`run_generation_pipeline` chains the stages with `?` (first error aborts
the run) and inserts the `RobotRecord` into the SQLite store only after
every stage, including both animation branches and both downloads, has
succeeded.  Every effectful step is an oracle in `PipelineEnv`; the store
is a list of records (insertion order), threaded explicitly.

The two animation poll loops run under `tokio::join!`: both run to
completion, then `idle_url_res?` is consulted before `attack_url_res?`.
In this pure model both traces are fully determined by their observation
streams, so evaluating them in sequence with idle's error taking
precedence gives the same `Result` and the same store contents. -/

/-- `db.rs` `RobotRecord`. -/
structure RobotRecord where
  id : String
  name : String
  lore : String
  hp : Int
  atk : Int
  «def» : Int
  original_image_path : String
  image_path : String
  model_path : String
  attack_model_path : String
  created_at : Int
  generation_time_ms : Int
deriving Repr, DecidableEq

/-- Oracles for every effectful step of one `run_generation_pipeline`
call, in the order the source performs them.  Submission oracles keep
their data dependencies (the image fed to the mesh job, the task ids fed
to rigging/animation); plumbing steps that can only succeed or fail
(base64 decode + file write) are single `Result<(), _>` oracles. -/
structure PipelineEnv where
  /-- `gemini::generate_robot_status(clean_base64)`. -/
  generate_robot_status : Except String RobotStatus
  /-- `gemini::generate_robot_image(stats.visual_description)`. -/
  generate_robot_image : String → Except String String
  /-- `meshy::create_image_to_3d_task(gen_image_b64)` → task id. -/
  create_image_to_3d_task : String → Except String String
  /-- observation stream consumed by `poll_for_glb_url`. -/
  meshObs : Nat → MeshFetch
  /-- decode `clean_base64` and write `{task_id}_original.png`. -/
  save_original_image : Except String Unit
  /-- decode `gen_image_b64` and write `{task_id}_gen.png`. -/
  save_generated_image : Except String Unit
  /-- `meshy::create_rigging_task(task_id)` → rig task id. -/
  create_rigging_task : String → Except String String
  /-- observation stream consumed by `poll_for_rigging_success`. -/
  rigObs : Nat → PollFetch TaskStatusResponse
  /-- `meshy::create_animation_task(rig_task_id, action_id)` → anim task id. -/
  create_animation_task : String → Nat → Except String String
  /-- observation stream of the idle (action id 0) animation poll. -/
  idleObs : Nat → PollFetch AnimationTaskStatusResponse
  /-- observation stream of the attack (action id 92) animation poll. -/
  attackObs : Nat → PollFetch AnimationTaskStatusResponse
  /-- `meshy::download_glb(app, url, filename)` → local path. -/
  download_glb : String → String → Except String String
  /-- `state.lock()` + `db::insert_robot(&conn, &new_robot)`. -/
  insert_robot : Except String Unit
  /-- `uuid::Uuid::new_v4()`. -/
  new_uuid : String
  /-- wall-clock seconds at the end of the run. -/
  created_at : Int
  /-- `start_time.elapsed()` in milliseconds. -/
  elapsed_ms : Int
  /-- `app.path().app_data_dir()`. -/
  app_data_dir : String

/-- lib.rs 53–134: everything of `run_generation_pipeline` up to and
including assembling `new_robot`, i.e. the stages before the store is
touched.  `Err` here is the pipeline aborting at the corresponding `?`. -/
def pipelineRecord (env : PipelineEnv) : Except String RobotRecord := do
  let stats ← env.generate_robot_status
  let gen_image_b64 ← env.generate_robot_image stats.visual_description
  let task_id ← env.create_image_to_3d_task gen_image_b64
  -- poll to completion; the un-animated base GLB itself is not downloaded
  let _ ← (poll_for_glb_url env.meshObs).result
  let original_image_path := env.app_data_dir ++ "/" ++ task_id ++ "_original.png"
  let generated_image_path := env.app_data_dir ++ "/" ++ task_id ++ "_gen.png"
  let _ ← env.save_original_image
  let _ ← env.save_generated_image
  let rig_task_id ← env.create_rigging_task task_id
  let _ ← (poll_for_rigging_success rig_task_id env.rigObs).result
  let idle_anim_task_id ← env.create_animation_task rig_task_id 0
  let attack_anim_task_id ← env.create_animation_task rig_task_id 92
  let idle_url ← (poll_for_animation_glb idle_anim_task_id "Idle" env.idleObs).result
  let attack_url ← (poll_for_animation_glb attack_anim_task_id "Attack" env.attackObs).result
  let idle_path ← env.download_glb idle_url (task_id ++ "_idle.glb")
  let attack_path ← env.download_glb attack_url (task_id ++ "_attack.glb")
  pure
    { id := env.new_uuid
      name := stats.name
      lore := stats.lore
      hp := stats.hp
      atk := stats.atk
      «def» := stats.«def»
      original_image_path := original_image_path
      image_path := generated_image_path
      model_path := idle_path
      attack_model_path := attack_path
      created_at := env.created_at
      generation_time_ms := env.elapsed_ms }

/-- lib.rs 39–140 over an explicit store: on any stage error the store is
untouched; on success the one terminal `insert_robot` appends the record
(db.rs `INSERT INTO robots ...`), and a failing insert also leaves the
store unchanged and fails the run. -/
def run_generation_pipeline (env : PipelineEnv) (store : List RobotRecord) :
    Except String RobotRecord × List RobotRecord :=
  match pipelineRecord env with
  | .error e => (.error e, store)
  | .ok new_robot =>
    match env.insert_robot with
    | .error e => (.error e, store)
    | .ok _ => (.ok new_robot, store ++ [new_robot])

/-! ## Poll-loop lemmas -/

/-- A mesh-loop observation after which the loop keeps polling: a fetch
error (retried) or a body with status `PENDING` / `IN_PROGRESS`. -/
def meshNonterminal (f : MeshFetch) : Prop :=
  (∃ e, f = .error e) ∨
    ∃ st, f = .ok st ∧ (st.status = "PENDING" ∨ st.status = "IN_PROGRESS")

/-- A rigging-loop observation after which the loop keeps polling: a
transport error (retried) or a body with any status other than the
terminal `SUCCEEDED` / `FAILED` / `CANCELED`. -/
def rigNonterminal (f : PollFetch TaskStatusResponse) : Prop :=
  (∃ e, f = .transportError e) ∨
    ∃ st, f = .ok st ∧ st.status ≠ "SUCCEEDED" ∧ st.status ≠ "FAILED" ∧
      st.status ≠ "CANCELED"

/-- Same for the animation loop. -/
def animNonterminal (f : PollFetch AnimationTaskStatusResponse) : Prop :=
  (∃ e, f = .transportError e) ∨
    ∃ st, f = .ok st ∧ st.status ≠ "SUCCEEDED" ∧ st.status ≠ "FAILED" ∧
      st.status ≠ "CANCELED"

theorem pollGlbFrom_step (obs : Nat → MeshFetch) (c f : Nat)
    (h : meshNonterminal (obs f)) :
    (pollGlbFrom obs (c + 1) f).result = (pollGlbFrom obs c (f + 1)).result ∧
    (pollGlbFrom obs (c + 1) f).fetches = (pollGlbFrom obs c (f + 1)).fetches := by
  rcases h with ⟨e, he⟩ | ⟨st, hst, hs⟩
  · simp [pollGlbFrom, he]
  · have h1 : st.status ≠ "SUCCEEDED" := by rcases hs with h | h <;> simp [h]
    have h2 : st.status ≠ "FAILED" := by rcases hs with h | h <;> simp [h]
    simp [pollGlbFrom, hst, h1, h2, hs]

theorem pollGlbFrom_run (obs : Nat → MeshFetch) (k : Nat) :
    ∀ c f, (∀ i, i < k → meshNonterminal (obs (f + i))) →
    (pollGlbFrom obs (c + k) f).result = (pollGlbFrom obs c (f + k)).result ∧
    (pollGlbFrom obs (c + k) f).fetches = (pollGlbFrom obs c (f + k)).fetches := by
  induction k with
  | zero => intro c f _; simp
  | succ k ih =>
    intro c f h
    have h0 : meshNonterminal (obs f) := by simpa using h 0 (by omega)
    have step := pollGlbFrom_step obs (c + k) f h0
    have rest := ih c (f + 1) (fun i hi => by
      have hh := h (i + 1) (by omega)
      have e : f + (i + 1) = f + 1 + i := by omega
      rwa [e] at hh)
    have e2 : f + 1 + k = f + (k + 1) := by omega
    rw [e2] at rest
    exact ⟨step.1.trans rest.1, step.2.trans rest.2⟩

theorem pollGlbFrom_succeeded (obs : Nat → MeshFetch) (c f : Nat)
    (st : TaskStatusResponse) (urls : ModelUrls) (g : String)
    (h : obs f = .ok st) (hs : st.status = "SUCCEEDED")
    (hu : st.model_urls = some urls) (hg : urls.glb = some g) :
    pollGlbFrom obs (c + 1) f = ⟨.ok g, f + 1, []⟩ := by
  simp [pollGlbFrom, h, hs, hu, hg]

theorem pollGlbFrom_succeeded_noglb (obs : Nat → MeshFetch) (c f : Nat)
    (st : TaskStatusResponse)
    (h : obs f = .ok st) (hs : st.status = "SUCCEEDED")
    (hu : st.model_urls = none ∨ ∃ urls, st.model_urls = some urls ∧ urls.glb = none) :
    pollGlbFrom obs (c + 1) f
      = ⟨.error "Task succeeded but no GLB URL found in response", f + 1, []⟩ := by
  rcases hu with hu | ⟨urls, hu, hg⟩
  · simp [pollGlbFrom, h, hs, hu]
  · simp [pollGlbFrom, h, hs, hu, hg]

theorem pollGlbFrom_failed (obs : Nat → MeshFetch) (c f : Nat)
    (st : TaskStatusResponse) (m : String)
    (h : obs f = .ok st) (hs : st.status = "FAILED")
    (hm : st.task_error = some ⟨m⟩) :
    pollGlbFrom obs (c + 1) f = ⟨.error ("Meshy Task Failed: " ++ m), f + 1, []⟩ := by
  have h1 : st.status ≠ "SUCCEEDED" := by simp [hs]
  simp [pollGlbFrom, h, h1, hs, hm]

theorem pollGlbFrom_failed_nomsg (obs : Nat → MeshFetch) (c f : Nat)
    (st : TaskStatusResponse)
    (h : obs f = .ok st) (hs : st.status = "FAILED")
    (hm : st.task_error = none) :
    pollGlbFrom obs (c + 1) f
      = ⟨.error ("Meshy Task Failed: " ++ "Unknown error"), f + 1, []⟩ := by
  have h1 : st.status ≠ "SUCCEEDED" := by simp [hs]
  simp [pollGlbFrom, h, h1, hs, hm]

theorem pollGlbFrom_unknown (obs : Nat → MeshFetch) (c f : Nat)
    (st : TaskStatusResponse)
    (h : obs f = .ok st) (h1 : st.status ≠ "SUCCEEDED") (h2 : st.status ≠ "FAILED")
    (h3 : st.status ≠ "PENDING") (h4 : st.status ≠ "IN_PROGRESS") :
    pollGlbFrom obs (c + 1) f
      = ⟨.error ("Unknown status: " ++ st.status), f + 1, []⟩ := by
  simp [pollGlbFrom, h, h1, h2, h3, h4]

theorem pollGlbFrom_allTransient (obs : Nat → MeshFetch)
    (h : ∀ i, ∃ e, obs i = .error e) :
    ∀ c f, pollGlbFrom obs c f
      = ⟨.error "Timeout waiting for Meshy AI task", f + c, []⟩ := by
  intro c
  induction c with
  | zero => intro f; simp [pollGlbFrom]
  | succ c ih =>
    intro f
    obtain ⟨e, he⟩ := h f
    have e2 : f + 1 + c = f + (c + 1) := by omega
    simp [pollGlbFrom, he, ih (f + 1), e2]

theorem pollRiggingFrom_step (tid : String) (obs : Nat → PollFetch TaskStatusResponse)
    (c f : Nat) (h : rigNonterminal (obs f)) :
    (pollRiggingFrom tid obs (c + 2) f).result
      = (pollRiggingFrom tid obs (c + 1) (f + 1)).result ∧
    (pollRiggingFrom tid obs (c + 2) f).fetches
      = (pollRiggingFrom tid obs (c + 1) (f + 1)).fetches := by
  rcases h with ⟨e, he⟩ | ⟨st, hst, h1, h2, h3⟩
  · simp [pollRiggingFrom, he]
  · simp [pollRiggingFrom, hst, h1, h2, h3]

theorem pollRiggingFrom_run (tid : String) (obs : Nat → PollFetch TaskStatusResponse)
    (k : Nat) :
    ∀ c f, (∀ i, i < k → rigNonterminal (obs (f + i))) →
    (pollRiggingFrom tid obs (c + k + 1) f).result
      = (pollRiggingFrom tid obs (c + 1) (f + k)).result ∧
    (pollRiggingFrom tid obs (c + k + 1) f).fetches
      = (pollRiggingFrom tid obs (c + 1) (f + k)).fetches := by
  induction k with
  | zero => intro c f _; simp
  | succ k ih =>
    intro c f h
    have h0 : rigNonterminal (obs f) := by simpa using h 0 (by omega)
    have step := pollRiggingFrom_step tid obs (c + k) f h0
    have rest := ih c (f + 1) (fun i hi => by
      have hh := h (i + 1) (by omega)
      have e : f + (i + 1) = f + 1 + i := by omega
      rwa [e] at hh)
    have e2 : f + 1 + k = f + (k + 1) := by omega
    rw [e2] at rest
    exact ⟨step.1.trans rest.1, step.2.trans rest.2⟩

theorem pollRiggingFrom_succeeded (tid : String)
    (obs : Nat → PollFetch TaskStatusResponse) (c f : Nat)
    (st : TaskStatusResponse) (h : obs f = .ok st) (hs : st.status = "SUCCEEDED") :
    pollRiggingFrom tid obs c f = ⟨.ok (), f + 1, []⟩ := by
  rcases c with _ | _ | c <;> simp [pollRiggingFrom, h, hs]

theorem pollRiggingFrom_failed (tid : String)
    (obs : Nat → PollFetch TaskStatusResponse) (c f : Nat)
    (st : TaskStatusResponse) (h : obs f = .ok st)
    (hs : st.status = "FAILED" ∨ st.status = "CANCELED") :
    pollRiggingFrom tid obs c f
      = ⟨.error ("Rigging task failed or canceled. ID: " ++ tid), f + 1, []⟩ := by
  have h1 : st.status ≠ "SUCCEEDED" := by rcases hs with h' | h' <;> simp [h']
  rcases c with _ | _ | c <;> simp [pollRiggingFrom, h, h1, hs]

theorem pollRiggingFrom_httpError (tid : String)
    (obs : Nat → PollFetch TaskStatusResponse) (c f : Nat)
    (status body : String) (h : obs f = .httpError status body) :
    pollRiggingFrom tid obs c f
      = ⟨.error ("Meshy poll error: " ++ status ++ " - " ++ body), f + 1, []⟩ := by
  rcases c with _ | _ | c <;> simp [pollRiggingFrom, h]

theorem pollRiggingFrom_allTransient (tid : String)
    (obs : Nat → PollFetch TaskStatusResponse)
    (h : ∀ i, ∃ e, obs i = .transportError e) :
    ∀ c f, pollRiggingFrom tid obs (c + 1) f
      = ⟨.error "Timeout waiting for Rigging task", f + c + 1, []⟩ := by
  intro c
  induction c with
  | zero =>
    intro f
    obtain ⟨e, he⟩ := h f
    simp [pollRiggingFrom, he]
  | succ c ih =>
    intro f
    obtain ⟨e, he⟩ := h f
    have e2 : f + 1 + c + 1 = f + (c + 1) + 1 := by omega
    simp [pollRiggingFrom, he]
    rw [ih (f + 1), e2]

theorem pollAnimationFrom_step (tid nm : String)
    (obs : Nat → PollFetch AnimationTaskStatusResponse)
    (c f : Nat) (h : animNonterminal (obs f)) :
    (pollAnimationFrom tid nm obs (c + 2) f).result
      = (pollAnimationFrom tid nm obs (c + 1) (f + 1)).result ∧
    (pollAnimationFrom tid nm obs (c + 2) f).fetches
      = (pollAnimationFrom tid nm obs (c + 1) (f + 1)).fetches := by
  rcases h with ⟨e, he⟩ | ⟨st, hst, h1, h2, h3⟩
  · simp [pollAnimationFrom, he]
  · simp [pollAnimationFrom, hst, h1, h2, h3]

theorem pollAnimationFrom_run (tid nm : String)
    (obs : Nat → PollFetch AnimationTaskStatusResponse) (k : Nat) :
    ∀ c f, (∀ i, i < k → animNonterminal (obs (f + i))) →
    (pollAnimationFrom tid nm obs (c + k + 1) f).result
      = (pollAnimationFrom tid nm obs (c + 1) (f + k)).result ∧
    (pollAnimationFrom tid nm obs (c + k + 1) f).fetches
      = (pollAnimationFrom tid nm obs (c + 1) (f + k)).fetches := by
  induction k with
  | zero => intro c f _; simp
  | succ k ih =>
    intro c f h
    have h0 : animNonterminal (obs f) := by simpa using h 0 (by omega)
    have step := pollAnimationFrom_step tid nm obs (c + k) f h0
    have rest := ih c (f + 1) (fun i hi => by
      have hh := h (i + 1) (by omega)
      have e : f + (i + 1) = f + 1 + i := by omega
      rwa [e] at hh)
    have e2 : f + 1 + k = f + (k + 1) := by omega
    rw [e2] at rest
    exact ⟨step.1.trans rest.1, step.2.trans rest.2⟩

theorem pollAnimationFrom_succeeded (tid nm : String)
    (obs : Nat → PollFetch AnimationTaskStatusResponse) (c f : Nat)
    (st : AnimationTaskStatusResponse) (r : AnimationUrls) (g : String)
    (h : obs f = .ok st) (hs : st.status = "SUCCEEDED")
    (hr : st.result = some r) (hg : r.animation_glb_url = some g) :
    pollAnimationFrom tid nm obs c f = ⟨.ok g, f + 1, []⟩ := by
  rcases c with _ | _ | c <;> simp [pollAnimationFrom, h, hs, hr, hg]

theorem pollAnimationFrom_succeeded_noresult (tid nm : String)
    (obs : Nat → PollFetch AnimationTaskStatusResponse) (c f : Nat)
    (st : AnimationTaskStatusResponse)
    (h : obs f = .ok st) (hs : st.status = "SUCCEEDED") (hr : st.result = none) :
    pollAnimationFrom tid nm obs c f
      = ⟨.error "Task succeeded but result object is missing", f + 1, []⟩ := by
  rcases c with _ | _ | c <;> simp [pollAnimationFrom, h, hs, hr]

theorem pollAnimationFrom_succeeded_nourl (tid nm : String)
    (obs : Nat → PollFetch AnimationTaskStatusResponse) (c f : Nat)
    (st : AnimationTaskStatusResponse) (r : AnimationUrls)
    (h : obs f = .ok st) (hs : st.status = "SUCCEEDED")
    (hr : st.result = some r) (hg : r.animation_glb_url = none) :
    pollAnimationFrom tid nm obs c f
      = ⟨.error "Task succeeded but animation_glb_url is missing", f + 1, []⟩ := by
  rcases c with _ | _ | c <;> simp [pollAnimationFrom, h, hs, hr, hg]

theorem pollAnimationFrom_failed (tid nm : String)
    (obs : Nat → PollFetch AnimationTaskStatusResponse) (c f : Nat)
    (st : AnimationTaskStatusResponse) (h : obs f = .ok st)
    (hs : st.status = "FAILED" ∨ st.status = "CANCELED") :
    pollAnimationFrom tid nm obs c f
      = ⟨.error ("Animation task failed or canceled. ID: " ++ tid), f + 1, []⟩ := by
  have h1 : st.status ≠ "SUCCEEDED" := by rcases hs with h' | h' <;> simp [h']
  rcases c with _ | _ | c <;> simp [pollAnimationFrom, h, h1, hs]

theorem pollAnimationFrom_httpError (tid nm : String)
    (obs : Nat → PollFetch AnimationTaskStatusResponse) (c f : Nat)
    (status body : String) (h : obs f = .httpError status body) :
    pollAnimationFrom tid nm obs c f
      = ⟨.error ("Meshy poll error: " ++ status ++ " - " ++ body), f + 1, []⟩ := by
  rcases c with _ | _ | c <;> simp [pollAnimationFrom, h]

theorem pollAnimationFrom_allTransient (tid nm : String)
    (obs : Nat → PollFetch AnimationTaskStatusResponse)
    (h : ∀ i, ∃ e, obs i = .transportError e) :
    ∀ c f, pollAnimationFrom tid nm obs (c + 1) f
      = ⟨.error ("Timeout waiting for Animation task (" ++ nm ++ ")"), f + c + 1, []⟩ := by
  intro c
  induction c with
  | zero =>
    intro f
    obtain ⟨e, he⟩ := h f
    simp [pollAnimationFrom, he]
  | succ c ih =>
    intro f
    obtain ⟨e, he⟩ := h f
    have e2 : f + 1 + c + 1 = f + (c + 1) + 1 := by omega
    simp [pollAnimationFrom, he]
    rw [ih (f + 1), e2]

theorem poll_for_glb_url_at (obs : Nat → MeshFetch) (k : Nat)
    (hk : k ≤ max_attempts) (hpre : ∀ i, i < k → meshNonterminal (obs i)) :
    (poll_for_glb_url obs).result = (pollGlbFrom obs (120 - k + 1) k).result ∧
    (poll_for_glb_url obs).fetches = (pollGlbFrom obs (120 - k + 1) k).fetches := by
  have hrun := pollGlbFrom_run obs k (120 - k + 1) 0 (by simpa using hpre)
  have e : max_attempts + 1 = 120 - k + 1 + k := by
    simp [max_attempts] at hk ⊢; omega
  unfold poll_for_glb_url
  rw [e]
  simpa using hrun

theorem poll_for_rigging_at (tid : String) (obs : Nat → PollFetch TaskStatusResponse)
    (k : Nat) (hk : k ≤ max_attempts) (hpre : ∀ i, i < k → rigNonterminal (obs i)) :
    (poll_for_rigging_success tid obs).result
      = (pollRiggingFrom tid obs (120 - k + 1) k).result ∧
    (poll_for_rigging_success tid obs).fetches
      = (pollRiggingFrom tid obs (120 - k + 1) k).fetches := by
  have hrun := pollRiggingFrom_run tid obs k (120 - k) 0 (by simpa using hpre)
  have e : max_attempts + 1 = 120 - k + k + 1 := by
    simp [max_attempts] at hk ⊢; omega
  unfold poll_for_rigging_success
  rw [e]
  simpa using hrun

theorem poll_for_animation_at (tid nm : String)
    (obs : Nat → PollFetch AnimationTaskStatusResponse)
    (k : Nat) (hk : k ≤ max_attempts) (hpre : ∀ i, i < k → animNonterminal (obs i)) :
    (poll_for_animation_glb tid nm obs).result
      = (pollAnimationFrom tid nm obs (120 - k + 1) k).result ∧
    (poll_for_animation_glb tid nm obs).fetches
      = (pollAnimationFrom tid nm obs (120 - k + 1) k).fetches := by
  have hrun := pollAnimationFrom_run tid nm obs k (120 - k) 0 (by simpa using hpre)
  have e : max_attempts + 1 = 120 - k + k + 1 := by
    simp [max_attempts] at hk ⊢; omega
  unfold poll_for_animation_glb
  rw [e]
  simpa using hrun

/-! ## Claims -/

/-- Every fetch of this stream reports the rig job `FAILED` with the
remote message "input mesh invalid". -/
def rigFailedObs : Nat → PollFetch TaskStatusResponse := fun _ =>
  .ok ⟨"rig-job", "FAILED", 0, none, some ⟨"input mesh invalid"⟩⟩

/-- C1, counterexample: when the rig job reports `FAILED` with remote
message "input mesh invalid", `poll_for_rigging_success` returns the
synthesized error `"Rigging task failed or canceled. ID: rig-1"` — the
remote-supplied message is discarded, not surfaced verbatim. -/
theorem C1_counterexample :
    (poll_for_rigging_success "rig-1" rigFailedObs).result
      = .error "Rigging task failed or canceled. ID: rig-1" ∧
    ¬ ("input mesh invalid".data <:+: "Rigging task failed or canceled. ID: rig-1".data) :=
  ⟨rfl, by decide⟩

/-- C1, amended: a `FAILED`/`CANCELED` status is terminal in every loop —
after `k` non-terminal observations the loop stops at fetch `k + 1` — but
only the mesh loop surfaces the remote-supplied message
(`"Meshy Task Failed: <msg>"`); the rigging and animation loops return a
synthesized error naming only the task id and discard any remote message. -/
theorem C1_terminal_failure :
    (∀ (obs : Nat → MeshFetch) (k : Nat) (st : TaskStatusResponse) (m : String),
      k ≤ max_attempts → (∀ i, i < k → meshNonterminal (obs i)) →
      obs k = .ok st → st.status = "FAILED" → st.task_error = some ⟨m⟩ →
      (poll_for_glb_url obs).result = .error ("Meshy Task Failed: " ++ m) ∧
      (poll_for_glb_url obs).fetches = k + 1) ∧
    (∀ (tid : String) (obs : Nat → PollFetch TaskStatusResponse) (k : Nat)
        (st : TaskStatusResponse),
      k ≤ max_attempts → (∀ i, i < k → rigNonterminal (obs i)) →
      obs k = .ok st → (st.status = "FAILED" ∨ st.status = "CANCELED") →
      (poll_for_rigging_success tid obs).result
        = .error ("Rigging task failed or canceled. ID: " ++ tid) ∧
      (poll_for_rigging_success tid obs).fetches = k + 1) ∧
    (∀ (tid nm : String) (obs : Nat → PollFetch AnimationTaskStatusResponse) (k : Nat)
        (st : AnimationTaskStatusResponse),
      k ≤ max_attempts → (∀ i, i < k → animNonterminal (obs i)) →
      obs k = .ok st → (st.status = "FAILED" ∨ st.status = "CANCELED") →
      (poll_for_animation_glb tid nm obs).result
        = .error ("Animation task failed or canceled. ID: " ++ tid) ∧
      (poll_for_animation_glb tid nm obs).fetches = k + 1) := by
  refine ⟨?_, ?_, ?_⟩
  · intro obs k st m hk hpre hobs hs hm
    have hat := poll_for_glb_url_at obs k hk hpre
    have hterm := pollGlbFrom_failed obs (120 - k) k st m hobs hs hm
    rw [hat.1, hat.2, hterm]
    exact ⟨rfl, rfl⟩
  · intro tid obs k st hk hpre hobs hs
    have hat := poll_for_rigging_at tid obs k hk hpre
    have hterm := pollRiggingFrom_failed tid obs (120 - k + 1) k st hobs hs
    rw [hat.1, hat.2, hterm]
    exact ⟨rfl, rfl⟩
  · intro tid nm obs k st hk hpre hobs hs
    have hat := poll_for_animation_at tid nm obs k hk hpre
    have hterm := pollAnimationFrom_failed tid nm obs (120 - k + 1) k st hobs hs
    rw [hat.1, hat.2, hterm]
    exact ⟨rfl, rfl⟩

/-- Mesh observation stream whose first fetch reports `FAILED` with a
remote message. -/
def meshFailedObs : Nat → MeshFetch := fun _ =>
  .ok ⟨"mesh-job", "FAILED", 0, none, some ⟨"boom"⟩⟩

/-- Animation observation stream whose first fetch reports `CANCELED`. -/
def animCanceledObs : Nat → PollFetch AnimationTaskStatusResponse := fun _ =>
  .ok ⟨"CANCELED", some 10, none⟩

/-- C1, witness: the amended theorem applied at `k = 0` to concrete
failed/canceled streams for all three loops. -/
theorem C1_witness :
    ((poll_for_glb_url meshFailedObs).result = .error ("Meshy Task Failed: " ++ "boom") ∧
      (poll_for_glb_url meshFailedObs).fetches = 1) ∧
    ((poll_for_rigging_success "rig-1" rigFailedObs).result
        = .error ("Rigging task failed or canceled. ID: " ++ "rig-1") ∧
      (poll_for_rigging_success "rig-1" rigFailedObs).fetches = 1) ∧
    ((poll_for_animation_glb "anim-1" "Idle" animCanceledObs).result
        = .error ("Animation task failed or canceled. ID: " ++ "anim-1") ∧
      (poll_for_animation_glb "anim-1" "Idle" animCanceledObs).fetches = 1) :=
  ⟨C1_terminal_failure.1 meshFailedObs 0 _ "boom" (Nat.zero_le _)
      (fun i hi => absurd hi (Nat.not_lt_zero i)) rfl rfl rfl,
    C1_terminal_failure.2.1 "rig-1" rigFailedObs 0 _ (Nat.zero_le _)
      (fun i hi => absurd hi (Nat.not_lt_zero i)) rfl (Or.inl rfl),
    C1_terminal_failure.2.2 "anim-1" "Idle" animCanceledObs 0 _ (Nat.zero_le _)
      (fun i hi => absurd hi (Nat.not_lt_zero i)) rfl (Or.inr rfl)⟩

/-- A stream on which every mesh status fetch fails with a transport
error. -/
def allNetErrObs : Nat → MeshFetch := fun _ => .error "connection refused"

/-- Rigging / animation stream on which every fetch is a transport
error. -/
def allTransportObsR : Nat → PollFetch TaskStatusResponse := fun _ =>
  .transportError "connection refused"

/-- Same stream shape for the animation loop. -/
def allTransportObsA : Nat → PollFetch AnimationTaskStatusResponse := fun _ =>
  .transportError "connection refused"

/-- C2, counterexample: with every fetch a transient error, the mesh loop
does return a Timeout error, but it performs 121 status fetches — one more
than `max_attempts = 120` — because the `attempts > max_attempts` check
only stops the 122nd iteration. -/
theorem C2_counterexample :
    (poll_for_glb_url allNetErrObs).result = .error "Timeout waiting for Meshy AI task" ∧
    (poll_for_glb_url allNetErrObs).fetches = 121 ∧
    (poll_for_glb_url allNetErrObs).fetches ≠ max_attempts :=
  ⟨rfl, rfl, by decide⟩

/-- C2, amended: on an all-transient stream each loop returns its Timeout
error after exactly `max_attempts + 1 = 121` status fetches (and the
rigging/animation loops emit no progress along the way). -/
theorem C2_timeout_budget :
    (∀ obs : Nat → MeshFetch, (∀ i, ∃ e, obs i = .error e) →
      poll_for_glb_url obs
        = ⟨.error "Timeout waiting for Meshy AI task", max_attempts + 1, []⟩) ∧
    (∀ (tid : String) (obs : Nat → PollFetch TaskStatusResponse),
      (∀ i, ∃ e, obs i = .transportError e) →
      poll_for_rigging_success tid obs
        = ⟨.error "Timeout waiting for Rigging task", max_attempts + 1, []⟩) ∧
    (∀ (tid nm : String) (obs : Nat → PollFetch AnimationTaskStatusResponse),
      (∀ i, ∃ e, obs i = .transportError e) →
      poll_for_animation_glb tid nm obs
        = ⟨.error ("Timeout waiting for Animation task (" ++ nm ++ ")"),
            max_attempts + 1, []⟩) := by
  refine ⟨?_, ?_, ?_⟩
  · intro obs h
    have := pollGlbFrom_allTransient obs h (max_attempts + 1) 0
    simpa using this
  · intro tid obs h
    have := pollRiggingFrom_allTransient tid obs h max_attempts 0
    simpa using this
  · intro tid nm obs h
    have := pollAnimationFrom_allTransient tid nm obs h max_attempts 0
    simpa using this

/-- C2, witness: the amended theorem applied to the concrete all-error
streams. -/
theorem C2_witness :
    poll_for_glb_url allNetErrObs
      = ⟨.error "Timeout waiting for Meshy AI task", max_attempts + 1, []⟩ ∧
    poll_for_rigging_success "rig-1" allTransportObsR
      = ⟨.error "Timeout waiting for Rigging task", max_attempts + 1, []⟩ ∧
    poll_for_animation_glb "anim-1" "Idle" allTransportObsA
      = ⟨.error ("Timeout waiting for Animation task (" ++ "Idle" ++ ")"),
          max_attempts + 1, []⟩ :=
  ⟨C2_timeout_budget.1 allNetErrObs (fun _ => ⟨"connection refused", rfl⟩),
    C2_timeout_budget.2.1 "rig-1" allTransportObsR (fun _ => ⟨"connection refused", rfl⟩),
    C2_timeout_budget.2.2 "anim-1" "Idle" allTransportObsA
      (fun _ => ⟨"connection refused", rfl⟩)⟩

/-- Rigging stream whose every fetch returns HTTP 500 with a body. -/
def rigHttp500Obs : Nat → PollFetch TaskStatusResponse := fun _ =>
  .httpError "500 Internal Server Error" "upstream failure"

/-- C3, counterexample: a 5xx-style service response during rigging
polling is NOT swallowed and retried — the loop returns the error to the
caller after a single fetch, with the attempt budget (120) untouched. -/
theorem C3_counterexample :
    (poll_for_rigging_success "rig-1" rigHttp500Obs).result
      = .error "Meshy poll error: 500 Internal Server Error - upstream failure" ∧
    (poll_for_rigging_success "rig-1" rigHttp500Obs).fetches = 1 :=
  ⟨rfl, rfl⟩

/-- C3, amended: the mesh loop swallows and retries every fetch error
(its `get_task_status` folds transport failures, non-success HTTP
statuses and decode failures into one `Err`), but the rigging and
animation loops retry only transport-level failures; a response with a
non-success (5xx-style) HTTP status makes them return a
`"Meshy poll error: <status> - <body>"` error immediately. -/
theorem C3_transient_retry :
    (∀ (obs : Nat → MeshFetch) (c f : Nat) (e : String), obs f = .error e →
      pollGlbFrom obs (c + 1) f = pollGlbFrom obs c (f + 1)) ∧
    (∀ (tid : String) (obs : Nat → PollFetch TaskStatusResponse) (c f : Nat)
        (e : String), obs f = .transportError e →
      pollRiggingFrom tid obs (c + 2) f = pollRiggingFrom tid obs (c + 1) (f + 1)) ∧
    (∀ (tid : String) (obs : Nat → PollFetch TaskStatusResponse) (c f : Nat)
        (s b : String), obs f = .httpError s b →
      pollRiggingFrom tid obs c f
        = ⟨.error ("Meshy poll error: " ++ s ++ " - " ++ b), f + 1, []⟩) ∧
    (∀ (tid nm : String) (obs : Nat → PollFetch AnimationTaskStatusResponse)
        (c f : Nat) (e : String), obs f = .transportError e →
      pollAnimationFrom tid nm obs (c + 2) f
        = pollAnimationFrom tid nm obs (c + 1) (f + 1)) ∧
    (∀ (tid nm : String) (obs : Nat → PollFetch AnimationTaskStatusResponse)
        (c f : Nat) (s b : String), obs f = .httpError s b →
      pollAnimationFrom tid nm obs c f
        = ⟨.error ("Meshy poll error: " ++ s ++ " - " ++ b), f + 1, []⟩) := by
  refine ⟨?_, ?_, ?_, ?_, ?_⟩
  · intro obs c f e h
    simp [pollGlbFrom, h]
  · intro tid obs c f e h
    simp [pollRiggingFrom, h]
  · intro tid obs c f s b h
    exact pollRiggingFrom_httpError tid obs c f s b h
  · intro tid nm obs c f e h
    simp [pollAnimationFrom, h]
  · intro tid nm obs c f s b h
    exact pollAnimationFrom_httpError tid nm obs c f s b h

/-- Animation stream whose every fetch returns HTTP 502 with a body. -/
def animHttp500Obs : Nat → PollFetch AnimationTaskStatusResponse := fun _ =>
  .httpError "502 Bad Gateway" "upstream failure"

/-- C3, witness: the amended theorem applied to concrete streams: the
mesh loop and both transport-error retries take a step without returning,
and the two HTTP-error cases return at once. -/
theorem C3_witness :
    pollGlbFrom allNetErrObs (5 + 1) 0 = pollGlbFrom allNetErrObs 5 1 ∧
    pollRiggingFrom "rig-1" allTransportObsR (5 + 2) 0
      = pollRiggingFrom "rig-1" allTransportObsR (5 + 1) 1 ∧
    pollRiggingFrom "rig-1" rigHttp500Obs 121 0
      = ⟨.error ("Meshy poll error: " ++ "500 Internal Server Error" ++ " - "
          ++ "upstream failure"), 1, []⟩ ∧
    pollAnimationFrom "anim-1" "Idle" allTransportObsA (5 + 2) 0
      = pollAnimationFrom "anim-1" "Idle" allTransportObsA (5 + 1) 1 ∧
    pollAnimationFrom "anim-1" "Attack" animHttp500Obs 121 0
      = ⟨.error ("Meshy poll error: " ++ "502 Bad Gateway" ++ " - "
          ++ "upstream failure"), 1, []⟩ :=
  ⟨C3_transient_retry.1 allNetErrObs 5 0 "connection refused" rfl,
    C3_transient_retry.2.1 "rig-1" allTransportObsR 5 0 "connection refused" rfl,
    C3_transient_retry.2.2.1 "rig-1" rigHttp500Obs 121 0
      "500 Internal Server Error" "upstream failure" rfl,
    C3_transient_retry.2.2.2.1 "anim-1" "Idle" allTransportObsA 5 0
      "connection refused" rfl,
    C3_transient_retry.2.2.2.2 "anim-1" "Attack" animHttp500Obs 121 0
      "502 Bad Gateway" "upstream failure" rfl⟩

/-- Scenario A observations: PENDING(0), IN_PROGRESS(40), IN_PROGRESS(90),
then SUCCEEDED with glb URL "https://x/y.glb". -/
def scenarioAObs : Nat → MeshFetch := fun n =>
  if n = 0 then .ok ⟨"t1", "PENDING", 0, none, none⟩
  else if n = 1 then .ok ⟨"t1", "IN_PROGRESS", 40, none, none⟩
  else if n = 2 then .ok ⟨"t1", "IN_PROGRESS", 90, none, none⟩
  else .ok ⟨"t1", "SUCCEEDED", 100, some ⟨some "https://x/y.glb", none, none⟩, none⟩

/-- C4, counterexample: on scenario A the mesh loop does not stop after 3
fetches with only the two notifications "40%" and "90%": the `SUCCEEDED`
observation is itself a fourth fetch, and the `PENDING(0)` observation
also emits a progress notification. -/
theorem C4_counterexample :
    ¬ ((poll_for_glb_url scenarioAObs).fetches = 3 ∧
      (poll_for_glb_url scenarioAObs).emitted
        = ["Image to 3D Base Model: 40%", "Image to 3D Base Model: 90%"]) := by
  decide

/-- C4, amended: on scenario A the mesh loop returns the stage result
"https://x/y.glb" after exactly 4 status fetches, emitting exactly 3
progress notifications, for the values 0%, 40% and 90% (the `PENDING`
branch emits too, and fetching the terminal status is the 4th fetch). -/
theorem C4_scenarioA :
    poll_for_glb_url scenarioAObs
      = ⟨.ok "https://x/y.glb", 4,
          ["Image to 3D Base Model: 0%", "Image to 3D Base Model: 40%",
            "Image to 3D Base Model: 90%"]⟩ := rfl

/-- C5: stats-generation fallback.  First part: when the six expected
fields sit (with case-varied keys) under an unexpected wrapper object —
so the typed top-level decode fails — the recursive case-insensitive
search recovers every value (numeric fields through the `as i32` cast,
the identity on in-range values).  Second part: for a response missing
all but a nested `name`, every missing field gets its documented default
and the stage still produces a full `RobotStatus` instead of failing. -/
theorem C5_stats_fallback :
    (∀ (n l vd : String) (h a d : Int),
      -2 ^ 31 ≤ h → h < 2 ^ 31 → -2 ^ 31 ≤ a → a < 2 ^ 31 →
      -2 ^ 31 ≤ d → d < 2 ^ 31 →
      extract_robot_status (.obj (.cons "data" (.obj
        (.cons "Name" (.str n) (.cons "LORE" (.str l) (.cons "HP" (.num h)
          (.cons "ATK" (.num a) (.cons "DEF" (.num d)
            (.cons "Visual_Description" (.str vd) .nil))))))) .nil))
        = ⟨n, l, h, a, d, vd⟩) ∧
    extract_robot_status (.obj (.cons "robot"
        (.obj (.cons "name" (.str "Karaage Bot") .nil)) .nil))
      = ⟨"Karaage Bot", "No lore available.", 1000, 50, 20,
          "A standard mechanical combat robot."⟩ := by
  constructor
  · intro n l vd h a d h1 h2 h3 h4 h5 h6
    have eh : toI32 h = h := by unfold toI32; omega
    have ea : toI32 a = a := by unfold toI32; omega
    have ed : toI32 d = d := by unfold toI32; omega
    calc extract_robot_status (.obj (.cons "data" (.obj
        (.cons "Name" (.str n) (.cons "LORE" (.str l) (.cons "HP" (.num h)
          (.cons "ATK" (.num a) (.cons "DEF" (.num d)
            (.cons "Visual_Description" (.str vd) .nil))))))) .nil))
        = ⟨n, l, toI32 h, toI32 a, toI32 d, vd⟩ := rfl
      _ = ⟨n, l, h, a, d, vd⟩ := by rw [eh, ea, ed]
  · rfl

/-- C5, witness: the wrapped-recovery part applied at concrete in-range
values. -/
theorem C5_witness :
    extract_robot_status (.obj (.cons "data" (.obj
        (.cons "Name" (.str "Sushi Sentinel") (.cons "LORE" (.str "forged by Oishii Industry")
          (.cons "HP" (.num 1200) (.cons "ATK" (.num 77) (.cons "DEF" (.num 33)
            (.cons "Visual_Description" (.str "a mechanical sushi robot") .nil))))))) .nil))
      = ⟨"Sushi Sentinel", "forged by Oishii Industry", 1200, 77, 33,
          "a mechanical sushi robot"⟩ :=
  C5_stats_fallback.1 "Sushi Sentinel" "forged by Oishii Industry"
    "a mechanical sushi robot" 1200 77 33
    (by norm_num) (by norm_num) (by norm_num) (by norm_num) (by norm_num) (by norm_num)

/-- C6: for every observation sequence consisting of `k ≤ 120`
non-terminal observations followed by a terminal `SUCCEEDED` whose payload
carries the expected field, the mesh loop returns the glb URL and the
animation loop the `animation_glb_url`, each after exactly `k + 1` fetches
— the extracted result is returned once and no fetch follows the
`SUCCEEDED` observation. -/
theorem C6_success_extraction :
    (∀ (obs : Nat → MeshFetch) (k : Nat) (st : TaskStatusResponse)
        (urls : ModelUrls) (g : String),
      k ≤ max_attempts → (∀ i, i < k → meshNonterminal (obs i)) →
      obs k = .ok st → st.status = "SUCCEEDED" →
      st.model_urls = some urls → urls.glb = some g →
      (poll_for_glb_url obs).result = .ok g ∧
      (poll_for_glb_url obs).fetches = k + 1) ∧
    (∀ (tid nm : String) (obs : Nat → PollFetch AnimationTaskStatusResponse)
        (k : Nat) (st : AnimationTaskStatusResponse) (r : AnimationUrls) (g : String),
      k ≤ max_attempts → (∀ i, i < k → animNonterminal (obs i)) →
      obs k = .ok st → st.status = "SUCCEEDED" →
      st.result = some r → r.animation_glb_url = some g →
      (poll_for_animation_glb tid nm obs).result = .ok g ∧
      (poll_for_animation_glb tid nm obs).fetches = k + 1) := by
  constructor
  · intro obs k st urls g hk hpre hobs hs hu hg
    have hat := poll_for_glb_url_at obs k hk hpre
    have hterm := pollGlbFrom_succeeded obs (120 - k) k st urls g hobs hs hu hg
    rw [hat.1, hat.2, hterm]
    exact ⟨rfl, rfl⟩
  · intro tid nm obs k st r g hk hpre hobs hs hr hg
    have hat := poll_for_animation_at tid nm obs k hk hpre
    have hterm := pollAnimationFrom_succeeded tid nm obs (120 - k + 1) k st r g hobs hs hr hg
    rw [hat.1, hat.2, hterm]
    exact ⟨rfl, rfl⟩

/-- Mesh stream: one `IN_PROGRESS`, then `SUCCEEDED` with a glb URL. -/
def meshSuccObs : Nat → MeshFetch := fun n =>
  if n = 0 then .ok ⟨"t1", "IN_PROGRESS", 50, none, none⟩
  else .ok ⟨"t1", "SUCCEEDED", 100, some ⟨some "glb://mesh", none, none⟩, none⟩

/-- Animation stream: one `PENDING`, then `SUCCEEDED` with a result URL. -/
def animSuccObs : Nat → PollFetch AnimationTaskStatusResponse := fun n =>
  if n = 0 then .ok ⟨"PENDING", some 0, none⟩
  else .ok ⟨"SUCCEEDED", some 100, some ⟨some "glb://anim"⟩⟩

/-- C6, witness: the theorem applied at `k = 1` to concrete streams. -/
theorem C6_witness :
    ((poll_for_glb_url meshSuccObs).result = .ok "glb://mesh" ∧
      (poll_for_glb_url meshSuccObs).fetches = 2) ∧
    ((poll_for_animation_glb "anim-1" "Idle" animSuccObs).result = .ok "glb://anim" ∧
      (poll_for_animation_glb "anim-1" "Idle" animSuccObs).fetches = 2) := by
  constructor
  · exact C6_success_extraction.1 meshSuccObs 1 _ _ "glb://mesh" (by decide)
      (fun i hi => by
        have : i = 0 := by omega
        subst this
        exact Or.inr ⟨⟨"t1", "IN_PROGRESS", 50, none, none⟩, rfl, Or.inr rfl⟩)
      rfl rfl rfl rfl
  · exact C6_success_extraction.2 "anim-1" "Idle" animSuccObs 1 _ _ "glb://anim" (by decide)
      (fun i hi => by
        have : i = 0 := by omega
        subst this
        exact Or.inr ⟨⟨"PENDING", some 0, none⟩, rfl, by decide, by decide, by decide⟩)
      rfl rfl rfl rfl

/-- C7: a terminal `SUCCEEDED` whose payload lacks the expected result
field makes the loop return an error at once — `k + 1` fetches total, no
retry — for the mesh loop (no `model_urls`, or no `glb` inside) and for
the animation loop (no `result` object, or no `animation_glb_url` inside). -/
theorem C7_malformed_success_is_hard :
    (∀ (obs : Nat → MeshFetch) (k : Nat) (st : TaskStatusResponse),
      k ≤ max_attempts → (∀ i, i < k → meshNonterminal (obs i)) →
      obs k = .ok st → st.status = "SUCCEEDED" →
      (st.model_urls = none ∨ ∃ urls, st.model_urls = some urls ∧ urls.glb = none) →
      (poll_for_glb_url obs).result
        = .error "Task succeeded but no GLB URL found in response" ∧
      (poll_for_glb_url obs).fetches = k + 1) ∧
    (∀ (tid nm : String) (obs : Nat → PollFetch AnimationTaskStatusResponse)
        (k : Nat) (st : AnimationTaskStatusResponse),
      k ≤ max_attempts → (∀ i, i < k → animNonterminal (obs i)) →
      obs k = .ok st → st.status = "SUCCEEDED" → st.result = none →
      (poll_for_animation_glb tid nm obs).result
        = .error "Task succeeded but result object is missing" ∧
      (poll_for_animation_glb tid nm obs).fetches = k + 1) ∧
    (∀ (tid nm : String) (obs : Nat → PollFetch AnimationTaskStatusResponse)
        (k : Nat) (st : AnimationTaskStatusResponse) (r : AnimationUrls),
      k ≤ max_attempts → (∀ i, i < k → animNonterminal (obs i)) →
      obs k = .ok st → st.status = "SUCCEEDED" →
      st.result = some r → r.animation_glb_url = none →
      (poll_for_animation_glb tid nm obs).result
        = .error "Task succeeded but animation_glb_url is missing" ∧
      (poll_for_animation_glb tid nm obs).fetches = k + 1) := by
  refine ⟨?_, ?_, ?_⟩
  · intro obs k st hk hpre hobs hs hu
    have hat := poll_for_glb_url_at obs k hk hpre
    have hterm := pollGlbFrom_succeeded_noglb obs (120 - k) k st hobs hs hu
    rw [hat.1, hat.2, hterm]
    exact ⟨rfl, rfl⟩
  · intro tid nm obs k st hk hpre hobs hs hr
    have hat := poll_for_animation_at tid nm obs k hk hpre
    have hterm := pollAnimationFrom_succeeded_noresult tid nm obs (120 - k + 1) k st hobs hs hr
    rw [hat.1, hat.2, hterm]
    exact ⟨rfl, rfl⟩
  · intro tid nm obs k st r hk hpre hobs hs hr hg
    have hat := poll_for_animation_at tid nm obs k hk hpre
    have hterm := pollAnimationFrom_succeeded_nourl tid nm obs (120 - k + 1) k st r hobs hs hr hg
    rw [hat.1, hat.2, hterm]
    exact ⟨rfl, rfl⟩

/-- Mesh stream whose first fetch is `SUCCEEDED` without any model urls. -/
def meshNoGlbObs : Nat → MeshFetch := fun _ => .ok ⟨"t1", "SUCCEEDED", 100, none, none⟩

/-- Animation stream whose first fetch is `SUCCEEDED` without a result. -/
def animNoResultObs : Nat → PollFetch AnimationTaskStatusResponse := fun _ =>
  .ok ⟨"SUCCEEDED", some 100, none⟩

/-- Animation stream whose first fetch is `SUCCEEDED` with a result that
lacks `animation_glb_url`. -/
def animNoUrlObs : Nat → PollFetch AnimationTaskStatusResponse := fun _ =>
  .ok ⟨"SUCCEEDED", some 100, some ⟨none⟩⟩

/-- C7, witness: the theorem applied at `k = 0` to the three malformed
terminal payloads. -/
theorem C7_witness :
    ((poll_for_glb_url meshNoGlbObs).result
        = .error "Task succeeded but no GLB URL found in response" ∧
      (poll_for_glb_url meshNoGlbObs).fetches = 1) ∧
    ((poll_for_animation_glb "anim-1" "Idle" animNoResultObs).result
        = .error "Task succeeded but result object is missing" ∧
      (poll_for_animation_glb "anim-1" "Idle" animNoResultObs).fetches = 1) ∧
    ((poll_for_animation_glb "anim-1" "Attack" animNoUrlObs).result
        = .error "Task succeeded but animation_glb_url is missing" ∧
      (poll_for_animation_glb "anim-1" "Attack" animNoUrlObs).fetches = 1) :=
  ⟨C7_malformed_success_is_hard.1 meshNoGlbObs 0 _ (Nat.zero_le _)
      (fun i hi => absurd hi (Nat.not_lt_zero i)) rfl rfl (Or.inl rfl),
    C7_malformed_success_is_hard.2.1 "anim-1" "Idle" animNoResultObs 0 _ (Nat.zero_le _)
      (fun i hi => absurd hi (Nat.not_lt_zero i)) rfl rfl rfl,
    C7_malformed_success_is_hard.2.2 "anim-1" "Attack" animNoUrlObs 0 _ ⟨none⟩ (Nat.zero_le _)
      (fun i hi => absurd hi (Nat.not_lt_zero i)) rfl rfl rfl rfl⟩

/-- C10: the loops disagree on unrecognized status strings.  The mesh
loop returns `"Unknown status: <s>"` immediately (after `k + 1` fetches)
for any status other than SUCCEEDED / FAILED / PENDING / IN_PROGRESS —
`CANCELED` included — while the rigging and animation loops treat any
status other than their terminal SUCCEEDED / FAILED / CANCELED as
non-terminal: they emit a progress notification and keep polling, the
attempt budget decreasing by one. -/
theorem C10_unknown_status_divergence :
    (∀ (obs : Nat → MeshFetch) (k : Nat) (st : TaskStatusResponse),
      k ≤ max_attempts → (∀ i, i < k → meshNonterminal (obs i)) →
      obs k = .ok st → st.status ≠ "SUCCEEDED" → st.status ≠ "FAILED" →
      st.status ≠ "PENDING" → st.status ≠ "IN_PROGRESS" →
      (poll_for_glb_url obs).result = .error ("Unknown status: " ++ st.status) ∧
      (poll_for_glb_url obs).fetches = k + 1) ∧
    (∀ (tid : String) (obs : Nat → PollFetch TaskStatusResponse) (c f : Nat)
        (st : TaskStatusResponse),
      obs f = .ok st → st.status ≠ "SUCCEEDED" → st.status ≠ "FAILED" →
      st.status ≠ "CANCELED" →
      (pollRiggingFrom tid obs (c + 2) f).result
        = (pollRiggingFrom tid obs (c + 1) (f + 1)).result ∧
      (pollRiggingFrom tid obs (c + 2) f).fetches
        = (pollRiggingFrom tid obs (c + 1) (f + 1)).fetches ∧
      (pollRiggingFrom tid obs (c + 2) f).emitted
        = ("Rigging Model: " ++ toString st.progress ++ "%")
            :: (pollRiggingFrom tid obs (c + 1) (f + 1)).emitted) ∧
    (∀ (tid nm : String) (obs : Nat → PollFetch AnimationTaskStatusResponse)
        (c f : Nat) (st : AnimationTaskStatusResponse),
      obs f = .ok st → st.status ≠ "SUCCEEDED" → st.status ≠ "FAILED" →
      st.status ≠ "CANCELED" →
      (pollAnimationFrom tid nm obs (c + 2) f).result
        = (pollAnimationFrom tid nm obs (c + 1) (f + 1)).result ∧
      (pollAnimationFrom tid nm obs (c + 2) f).fetches
        = (pollAnimationFrom tid nm obs (c + 1) (f + 1)).fetches ∧
      (pollAnimationFrom tid nm obs (c + 2) f).emitted
        = ("Applying Animation (" ++ nm ++ "): " ++ toString (st.progress.getD 0) ++ "%")
            :: (pollAnimationFrom tid nm obs (c + 1) (f + 1)).emitted) := by
  refine ⟨?_, ?_, ?_⟩
  · intro obs k st hk hpre hobs h1 h2 h3 h4
    have hat := poll_for_glb_url_at obs k hk hpre
    have hterm := pollGlbFrom_unknown obs (120 - k) k st hobs h1 h2 h3 h4
    rw [hat.1, hat.2, hterm]
    exact ⟨rfl, rfl⟩
  · intro tid obs c f st hobs h1 h2 h3
    refine ⟨?_, ?_, ?_⟩ <;> simp [pollRiggingFrom, hobs, h1, h2, h3]
  · intro tid nm obs c f st hobs h1 h2 h3
    refine ⟨?_, ?_, ?_⟩ <;> simp [pollAnimationFrom, hobs, h1, h2, h3]

/-- Mesh stream whose first status is `CANCELED` (unrecognized for the
mesh loop). -/
def meshCanceledObs : Nat → MeshFetch := fun _ => .ok ⟨"t1", "CANCELED", 0, none, none⟩

/-- Rigging stream whose first status is the unrecognized `"QUEUED"`. -/
def rigQueuedObs : Nat → PollFetch TaskStatusResponse := fun _ =>
  .ok ⟨"r1", "QUEUED", 5, none, none⟩

/-- Animation stream whose first status is the unrecognized `"QUEUED"`. -/
def animQueuedObs : Nat → PollFetch AnimationTaskStatusResponse := fun _ =>
  .ok ⟨"QUEUED", some 5, none⟩

/-- C10, witness: `CANCELED` aborts the mesh loop with "Unknown status:
CANCELED" after one fetch, while `QUEUED` keeps the rigging and animation
loops polling with a progress emission. -/
theorem C10_witness :
    ((poll_for_glb_url meshCanceledObs).result
        = .error ("Unknown status: " ++ "CANCELED") ∧
      (poll_for_glb_url meshCanceledObs).fetches = 1) ∧
    ((pollRiggingFrom "rig-1" rigQueuedObs (3 + 2) 0).result
        = (pollRiggingFrom "rig-1" rigQueuedObs (3 + 1) 1).result ∧
      (pollRiggingFrom "rig-1" rigQueuedObs (3 + 2) 0).fetches
        = (pollRiggingFrom "rig-1" rigQueuedObs (3 + 1) 1).fetches ∧
      (pollRiggingFrom "rig-1" rigQueuedObs (3 + 2) 0).emitted
        = ("Rigging Model: " ++ toString (5 : Nat) ++ "%")
            :: (pollRiggingFrom "rig-1" rigQueuedObs (3 + 1) 1).emitted) ∧
    ((pollAnimationFrom "anim-1" "Idle" animQueuedObs (3 + 2) 0).result
        = (pollAnimationFrom "anim-1" "Idle" animQueuedObs (3 + 1) 1).result ∧
      (pollAnimationFrom "anim-1" "Idle" animQueuedObs (3 + 2) 0).fetches
        = (pollAnimationFrom "anim-1" "Idle" animQueuedObs (3 + 1) 1).fetches ∧
      (pollAnimationFrom "anim-1" "Idle" animQueuedObs (3 + 2) 0).emitted
        = ("Applying Animation (" ++ "Idle" ++ "): " ++ toString ((some 5 : Option Nat).getD 0) ++ "%")
            :: (pollAnimationFrom "anim-1" "Idle" animQueuedObs (3 + 1) 1).emitted) :=
  ⟨C10_unknown_status_divergence.1 meshCanceledObs 0 _ (Nat.zero_le _)
      (fun i hi => absurd hi (Nat.not_lt_zero i)) rfl
      (by decide) (by decide) (by decide) (by decide),
    C10_unknown_status_divergence.2.1 "rig-1" rigQueuedObs 3 0 _ rfl
      (by decide) (by decide) (by decide),
    C10_unknown_status_divergence.2.2 "anim-1" "Idle" animQueuedObs 3 0 _ rfl
      (by decide) (by decide) (by decide)⟩

/-- C8: after rigging succeeds the orchestrator creates the idle
animation with action id 0 and the attack animation with action id 92 and
joins both poll loops.  If both succeed (and both downloads and the final
insert succeed) the run produces one record carrying the idle path as
`model_path` and the attack path as `attack_model_path`; if the idle
branch fails, or idle succeeds but attack fails, the whole run fails with
that error and the store is untouched — the sibling's successful result
is discarded, there is no partial-success outcome. -/
theorem C8_animation_join
    (env : PipelineEnv) (store : List RobotRecord)
    (stats : RobotStatus) (img tid rid aid0 aid92 : String)
    (h1 : env.generate_robot_status = .ok stats)
    (h2 : env.generate_robot_image stats.visual_description = .ok img)
    (h3 : env.create_image_to_3d_task img = .ok tid)
    (h4 : ∃ g, (poll_for_glb_url env.meshObs).result = .ok g)
    (h5 : env.save_original_image = .ok ())
    (h6 : env.save_generated_image = .ok ())
    (h7 : env.create_rigging_task tid = .ok rid)
    (h8 : (poll_for_rigging_success rid env.rigObs).result = .ok ())
    (h9 : env.create_animation_task rid 0 = .ok aid0)
    (h10 : env.create_animation_task rid 92 = .ok aid92) :
    (∀ u0 u92 p0 p92,
      (poll_for_animation_glb aid0 "Idle" env.idleObs).result = .ok u0 →
      (poll_for_animation_glb aid92 "Attack" env.attackObs).result = .ok u92 →
      env.download_glb u0 (tid ++ "_idle.glb") = .ok p0 →
      env.download_glb u92 (tid ++ "_attack.glb") = .ok p92 →
      env.insert_robot = .ok () →
      ∃ r, run_generation_pipeline env store = (.ok r, store ++ [r]) ∧
        r.model_path = p0 ∧ r.attack_model_path = p92) ∧
    (∀ e, (poll_for_animation_glb aid0 "Idle" env.idleObs).result = .error e →
      run_generation_pipeline env store = (.error e, store)) ∧
    (∀ u0 e,
      (poll_for_animation_glb aid0 "Idle" env.idleObs).result = .ok u0 →
      (poll_for_animation_glb aid92 "Attack" env.attackObs).result = .error e →
      run_generation_pipeline env store = (.error e, store)) := by
  obtain ⟨g, h4⟩ := h4
  refine ⟨?_, ?_, ?_⟩
  · intro u0 u92 p0 p92 hu0 hu92 hp0 hp92 hins
    have hrec : pipelineRecord env = .ok
        { id := env.new_uuid
          name := stats.name
          lore := stats.lore
          hp := stats.hp
          atk := stats.atk
          «def» := stats.«def»
          original_image_path := env.app_data_dir ++ "/" ++ tid ++ "_original.png"
          image_path := env.app_data_dir ++ "/" ++ tid ++ "_gen.png"
          model_path := p0
          attack_model_path := p92
          created_at := env.created_at
          generation_time_ms := env.elapsed_ms } := by
      simp [pipelineRecord, Bind.bind, Except.bind, Pure.pure, Except.pure,
        h1, h2, h3, h4, h5, h6, h7, h8, h9, h10, hu0, hu92, hp0, hp92]
    refine ⟨⟨env.new_uuid, stats.name, stats.lore, stats.hp, stats.atk, stats.«def»,
        env.app_data_dir ++ "/" ++ tid ++ "_original.png",
        env.app_data_dir ++ "/" ++ tid ++ "_gen.png",
        p0, p92, env.created_at, env.elapsed_ms⟩, ?_, rfl, rfl⟩
    simp [run_generation_pipeline, hrec, hins]
  · intro e he
    have hrec : pipelineRecord env = .error e := by
      simp [pipelineRecord, Bind.bind, Except.bind, Pure.pure, Except.pure,
        h1, h2, h3, h4, h5, h6, h7, h8, h9, h10, he]
    simp [run_generation_pipeline, hrec]
  · intro u0 e hu0 he
    have hrec : pipelineRecord env = .error e := by
      simp [pipelineRecord, Bind.bind, Except.bind, Pure.pure, Except.pure,
        h1, h2, h3, h4, h5, h6, h7, h8, h9, h10, hu0, he]
    simp [run_generation_pipeline, hrec]

/-- Stats object used by the concrete pipeline environment. -/
def wStats : RobotStatus :=
  ⟨"Sushi Sentinel", "forged by Oishii Industry", 1200, 77, 33, "a mechanical sushi robot"⟩

/-- A concrete fully-succeeding pipeline environment. -/
def wEnv : PipelineEnv where
  generate_robot_status := .ok wStats
  generate_robot_image := fun _ => .ok "IMGB64"
  create_image_to_3d_task := fun _ => .ok "T1"
  meshObs := fun _ =>
    .ok ⟨"T1", "SUCCEEDED", 100, some ⟨some "glb://mesh", none, none⟩, none⟩
  save_original_image := .ok ()
  save_generated_image := .ok ()
  create_rigging_task := fun _ => .ok "R1"
  rigObs := fun _ => .ok ⟨"R1", "SUCCEEDED", 100, none, none⟩
  create_animation_task := fun _ aid => .ok ("A" ++ toString aid)
  idleObs := fun _ => .ok ⟨"SUCCEEDED", some 100, some ⟨some "glb://idle"⟩⟩
  attackObs := fun _ => .ok ⟨"SUCCEEDED", some 100, some ⟨some "glb://attack"⟩⟩
  download_glb := fun _ filename => .ok ("/data/" ++ filename)
  insert_robot := .ok ()
  new_uuid := "uuid-1"
  created_at := 1700000000
  elapsed_ms := 60000
  app_data_dir := "/data"

/-- C8, witness: the both-succeed branch of the theorem at the concrete
environment: the run returns one record whose `model_path` is the idle
download and whose `attack_model_path` is the attack download. -/
theorem C8_witness :
    ∃ r, run_generation_pipeline wEnv [] = (.ok r, [] ++ [r]) ∧
      r.model_path = "/data/" ++ ("T1" ++ "_idle.glb") ∧
      r.attack_model_path = "/data/" ++ ("T1" ++ "_attack.glb") :=
  (C8_animation_join wEnv [] wStats "IMGB64" "T1" "R1"
      ("A" ++ toString (0 : Nat)) ("A" ++ toString (92 : Nat))
      rfl rfl rfl ⟨"glb://mesh", rfl⟩ rfl rfl rfl rfl rfl rfl).1
    "glb://idle" "glb://attack"
    ("/data/" ++ ("T1" ++ "_idle.glb")) ("/data/" ++ ("T1" ++ "_attack.glb"))
    rfl rfl rfl rfl rfl

/-- C9: a pipeline run that returns an error leaves the result store
unchanged — no partial RobotRecord is persisted — and a run that returns
a record has appended exactly that one record at the very end. -/
theorem C9_no_partial_persistence (env : PipelineEnv) (store : List RobotRecord) :
    (∀ e, (run_generation_pipeline env store).1 = .error e →
      (run_generation_pipeline env store).2 = store) ∧
    (∀ r, (run_generation_pipeline env store).1 = .ok r →
      (run_generation_pipeline env store).2 = store ++ [r]) := by
  unfold run_generation_pipeline
  rcases hp : pipelineRecord env with e | r
  · exact ⟨fun _ _ => rfl, fun r hr => by simp at hr⟩
  · rcases hi : env.insert_robot with e' | u
    · exact ⟨fun _ _ => rfl, fun r' hr => by simp at hr⟩
    · refine ⟨fun e'' he => by simp at he, fun r' hr => ?_⟩
      have : r = r' := by simpa using hr
      subst this
      rfl

/-- A pipeline environment identical to `wEnv` except that the stats
stage fails at once (missing API key). -/
def wFailEnv : PipelineEnv :=
  { wEnv with generate_robot_status :=
      Except.error "GEMINI_API_KEY not found in environment variables" }

/-- The record the concrete succeeding environment produces. -/
def wRecord : RobotRecord :=
  ⟨"uuid-1", "Sushi Sentinel", "forged by Oishii Industry", 1200, 77, 33,
    "/data/T1_original.png", "/data/T1_gen.png", "/data/T1_idle.glb",
    "/data/T1_attack.glb", 1700000000, 60000⟩

/-- C9, witness: both directions of the theorem at concrete environments:
the failing run leaves the empty store empty, and the succeeding one
appends exactly its record. -/
theorem C9_witness :
    (run_generation_pipeline wFailEnv []).2 = [] ∧
    (run_generation_pipeline wEnv []).2 = [] ++ [wRecord] :=
  ⟨(C9_no_partial_persistence wFailEnv []).1
      "GEMINI_API_KEY not found in environment variables" rfl,
    (C9_no_partial_persistence wEnv []).2 wRecord rfl⟩

end FoodFight
